import Mathlib

/-
Verification of the django-q data-model core (src/django_q/models.py and
src/django_q/signals.py) via a shallow embedding in Lean 4.

A Django queryset over the Task table is modelled as a list of TaskRec
values; queryset operations (filter, exists, get, count, delete, update)
become list operations wrapped in Except so that the ORM exceptions
(FieldError, DoesNotExist, MultipleObjectsReturned) and Python exceptions
(AttributeError) are explicit values.  A filter keyword is resolved against
the declared fields of the Task model exactly as Django resolves it: a
keyword naming no declared field raises FieldError.
-/

namespace DjangoQ

/-- The STATUS_CHOICES of the Task model (models.py lines 63-68). -/
inductive Status
  | pending
  | running
  | success
  | failed
deriving DecidableEq, Repr

/-- One row of the Task table, with exactly the fields declared on the
Task model (models.py lines 70-86).  Pickled payload fields are kept as
opaque optional strings; datetime fields as integers.  Note the model
declares a status field but no success field. -/
structure TaskRec where
  id : String
  name : String
  func : String
  hook : Option String := none
  args : Option String := none
  kwargs : Option String := none
  result : Option String := none
  group : Option String := none
  cluster_type : Option String := none
  created_time : Int := 0
  start_time : Int := 0
  duration : Int := 0
  status : Status := Status.pending
  attempt_count : Int := 0
deriving DecidableEq, Repr

/-- Value of a Task field, for keyword filtering. -/
inductive FVal
  | str : Option String → FVal
  | stat : Status → FVal
  | int : Int → FVal
  | bool : Bool → FVal
deriving DecidableEq, Repr

/-- Resolution of a filter keyword against the declared fields of the Task
model (models.py lines 70-86): the accessor for a declared field, none for
any other keyword.  There is no entry for a success keyword because the
model declares no success field. -/
def taskField : String → Option (TaskRec → FVal)
  | "id" => some fun t => FVal.str (some t.id)
  | "name" => some fun t => FVal.str (some t.name)
  | "func" => some fun t => FVal.str (some t.func)
  | "hook" => some fun t => FVal.str t.hook
  | "args" => some fun t => FVal.str t.args
  | "kwargs" => some fun t => FVal.str t.kwargs
  | "result" => some fun t => FVal.str t.result
  | "group" => some fun t => FVal.str t.group
  | "cluster_type" => some fun t => FVal.str t.cluster_type
  | "created_time" => some fun t => FVal.int t.created_time
  | "start_time" => some fun t => FVal.int t.start_time
  | "duration" => some fun t => FVal.int t.duration
  | "status" => some fun t => FVal.stat t.status
  | "attempt_count" => some fun t => FVal.int t.attempt_count
  | _ => none

/-- Errors surfaced by the embedded operations: Django ORM exceptions and
the Python / Django exceptions the source can raise. -/
inductive QErr
  | doesNotExist
  | multipleObjectsReturned
  | fieldError
  | attributeError
  | validationError
  | importError
deriving DecidableEq, Repr

/-- Queryset filter with a single keyword argument, as in
qs.filter(field=value): Django resolves the keyword against the declared
fields of the model and raises FieldError when it names none of them. -/
def qfilter (db : List TaskRec) (field : String) (v : FVal) :
    Except QErr (List TaskRec) :=
  match taskField field with
  | none => Except.error QErr.fieldError
  | some proj => Except.ok (db.filter fun t => proj t == v)

/-- Queryset get on an already filtered queryset: raises DoesNotExist on
no match and MultipleObjectsReturned on more than one match. -/
def djangoGet (qs : List TaskRec) : Except QErr TaskRec :=
  match qs with
  | [] => Except.error QErr.doesNotExist
  | [t] => Except.ok t
  | _ => Except.error QErr.multipleObjectsReturned

/-- TaskManager.get_task (models.py lines 26-33): if the input has length
32 and a row with that id exists, return the row with that id; otherwise,
if a row with that name exists, return the row with that name (get raises
MultipleObjectsReturned when several rows share the name); otherwise the
Python function falls through and returns None. -/
def get_task (db : List TaskRec) (task_id : String) :
    Except QErr (Option TaskRec) :=
  let byId := db.filter fun t => t.id == task_id
  if task_id.length == 32 && !byId.isEmpty then
    (djangoGet byId).map some
  else
    let byName := db.filter fun t => t.name == task_id
    if !byName.isEmpty then (djangoGet byName).map some
    else Except.ok none

/-- TaskManager.get_result (models.py lines 35-39): returns
get_task(task_id).result; when get_task returned None, the attribute
access on None raises AttributeError. -/
def get_result (db : List TaskRec) (task_id : String) :
    Except QErr (Option String) :=
  match get_task db task_id with
  | Except.error e => Except.error e
  | Except.ok none => Except.error QErr.attributeError
  | Except.ok (some t) => Except.ok t.result

/-- TaskManager.get_group_tasks (models.py lines 45-49): filter the
queryset by group=group_id, and when failures is true filter further by
success=False.  The failures parameter defaults to True in the source. -/
def get_group_tasks (db : List TaskRec) (group_id : String)
    (failures : Bool) : Except QErr (List TaskRec) := do
  let qs ← qfilter db "group" (FVal.str (some group_id))
  if failures then qfilter qs "success" (FVal.bool false)
  else pure qs

/-- TaskManager.get_group_count (models.py lines 51-52): count of
get_group_tasks(group_id, failures).  The failures parameter defaults to
False in the source. -/
def get_group_count (db : List TaskRec) (group_id : String)
    (failures : Bool) : Except QErr Nat := do
  let qs ← get_group_tasks db group_id failures
  pure qs.length

/-- decode_results (models.py lines 260-264): on any Django version whose
minor component is not 7 the values are returned unchanged; the modelled
deployment is a modern Django, so this is the identity. -/
def decode_results (values : List (Option String)) : List (Option String) :=
  values

/-- TaskManager.get_group_results (models.py lines 41-43): the result
column of get_group_tasks(group_id, failures), passed through
decode_results.  The failures parameter defaults to False in the source. -/
def get_group_results (db : List TaskRec) (group_id : String)
    (failures : Bool) : Except QErr (List (Option String)) := do
  let qs ← get_group_tasks db group_id failures
  pure (decode_results (qs.map fun t => t.result))

/-- TaskManager.delete_group (models.py lines 54-59): builds the queryset
get_group_tasks(group_id) — the failures argument is omitted in the
source, so it takes its default True — then either deletes those rows
(tasks=True) or updates them with group=None (tasks=False).  Returns the
resulting Task table. -/
def delete_group (db : List TaskRec) (group_id : String) (tasks : Bool) :
    Except QErr (List TaskRec) := do
  let group_qs ← get_group_tasks db group_id true
  if tasks then
    pure (db.filter fun t => !(group_qs.contains t))
  else
    pure (db.map fun t =>
      if group_qs.contains t then { t with group := none } else t)

/-- The exception kinds the hook dispatcher catches around resolution
(signals.py line 19): ValueError, ImportError, AttributeError.  The
resolution collaborator lives in django_q.tasks, which is not part of the
sources; modelled from the spec, which says a textual reference resolves
to an invocable and failure raises a distinguishable not-found /
not-callable condition — exactly the kinds caught here. -/
inductive ResolveErr
  | valueError
  | importError
  | attributeError
deriving DecidableEq, Repr

/-- Observable outcome of one run of the hook dispatcher. -/
inductive HookOutcome
  | noHook
  | resolutionFailedLogged
  | invokedOk
  | invokedRaisedLogged (msg : String)
deriving DecidableEq, Repr

/-- Python truthiness of the hook attribute: None and the empty string
are falsy. -/
def hookTruthy : Option String → Bool
  | none => false
  | some s => !s.isEmpty

/-- call_hook (signals.py lines 12-31), the post_save receiver on Task.
The resolve argument models the resolution collaborator of django_q.tasks
(see ResolveErr); a hook callback is a function of the saved task that
either returns or raises (Except.error carries the message str(e)).  The
hook attribute is a CharField value, never a callable, so the callable(f) test of the
source always fails and resolution is attempted; resolution
failure is logged and the receiver returns; the resolved callable is
invoked on the task inside a try block whose except clause catches every
Exception and logs it.  An exception the receiver did not catch would
escape as Except.error. -/
def call_hook
    (resolve : String → Except ResolveErr (TaskRec → Except String Unit))
    (t : TaskRec) : Except String HookOutcome :=
  match t.hook with
  | none => Except.ok HookOutcome.noHook
  | some h =>
    if h.isEmpty then Except.ok HookOutcome.noHook
    else
      match resolve h with
      | Except.error _ => Except.ok HookOutcome.resolutionFailedLogged
      | Except.ok f =>
        match f t with
        | Except.ok _ => Except.ok HookOutcome.invokedOk
        | Except.error e => Except.ok (HookOutcome.invokedRaisedLogged e)

/-- Saving a Task row: replace the row with the same id when one exists,
append otherwise. -/
def save_task (db : List TaskRec) (t : TaskRec) : List TaskRec :=
  if db.any fun u => u.id == t.id then
    db.map fun u => if u.id == t.id then t else u
  else db ++ [t]

/-- A Task save followed by the post_save signal dispatch to call_hook:
in Django an exception escaping a receiver propagates to the caller of
save, so such an exception would surface here as Except.error; otherwise
the updated table is returned together with the hook outcome. -/
def save_with_hooks
    (resolve : String → Except ResolveErr (TaskRec → Except String Unit))
    (db : List TaskRec) (t : TaskRec) :
    Except String (List TaskRec × HookOutcome) :=
  match call_hook resolve t with
  | Except.error e => Except.error e
  | Except.ok o => Except.ok (save_task db t, o)

/-- The croniter collaborator (external library, imported through
django_q.conf): expand(value) succeeds on a well-formed cron expression
and raises ValueError on a malformed one; expandOk records on which
strings it succeeds. -/
structure CronLib where
  expandOk : String → Bool

/-- validate_cron (models.py lines 146-152): when croniter is not
installed an ImportError is raised; otherwise croniter.expand(value) is
tried and a ValueError from it is re-raised as ValidationError. -/
def validate_cron (cronlib : Option CronLib) (value : String) :
    Except QErr Unit :=
  match cronlib with
  | none => Except.error QErr.importError
  | some lib =>
    if lib.expandOk value then Except.ok ()
    else Except.error QErr.validationError

/-- The schedule_type choice letters of the Schedule model (models.py
lines 168-187). -/
def scheduleTypeChoices : List String :=
  ["O", "I", "H", "D", "W", "M", "Q", "Y", "C"]

/-- One row of the Schedule table (models.py lines 155-207).  name, hook,
args, kwargs, minutes, next_run, cron and task are all declared null=True
(and blank=True where shown); schedule_type defaults to the once type
letter and repeats to -1. -/
structure ScheduleRec where
  name : Option String := none
  func : String
  hook : Option String := none
  args : Option String := none
  kwargs : Option String := none
  schedule_type : String := "O"
  minutes : Option Nat := none
  repeats : Int := -1
  next_run : Option Int := some 0
  cron : Option String := none
  task : Option String := none
deriving DecidableEq, Repr

/-- Write-time validation of a Schedule row, as the Django full clean runs
it over the field declarations of models.py lines 155-207: schedule_type
must be one of the declared choices; cron is the only field carrying a
custom validator (validators=[validate_cron], run only when the value is
non-null); every other constraint is satisfied by construction since
minutes and cron are declared null=True, blank=True and no clean method
exists on the model. -/
def schedule_clean (cronlib : Option CronLib) (s : ScheduleRec) :
    Except QErr Unit :=
  if !(scheduleTypeChoices.contains s.schedule_type) then
    Except.error QErr.validationError
  else
    match s.cron with
    | none => Except.ok ()
    | some c => validate_cron cronlib c

/-- One row of the Worker table (models.py lines 279-287): cluster is a
foreign key to Cluster declared on_delete=CASCADE, task a nullable
foreign key to Task declared on_delete=SET_NULL. -/
structure WorkerRec where
  id : String
  cluster : String
  pid : Int := 0
  start_time : Int := 0
  task : Option String := none
deriving DecidableEq, Repr

/-- Effect on the Worker table of deleting the Task row with id tid:
per on_delete=SET_NULL (models.py line 287), every worker referencing
that task has its task reference set to null; no worker row is deleted. -/
def on_task_delete (ws : List WorkerRec) (tid : String) : List WorkerRec :=
  ws.map fun w => if w.task = some tid then { w with task := none } else w

/-- Effect on the Worker table of deleting the Cluster row with id cid:
per on_delete=CASCADE (models.py line 284), every worker referencing that
cluster is deleted. -/
def on_cluster_delete (ws : List WorkerRec) (cid : String) :
    List WorkerRec :=
  ws.filter fun w => w.cluster != cid

/-- A 32-character task id, the id length get_task tests for. -/
def idA : String := "aaaaaaaaaaaaaaaaaaaaaaaaaaaaaaaa"

/-- A second 32-character task id. -/
def idB : String := "bbbbbbbbbbbbbbbbbbbbbbbbbbbbbbbb"

/-- A third 32-character task id. -/
def idC : String := "cccccccccccccccccccccccccccccccc"

/-- A fourth 32-character task id. -/
def idD : String := "dddddddddddddddddddddddddddddddd"

/-- A fifth 32-character task id. -/
def idE : String := "eeeeeeeeeeeeeeeeeeeeeeeeeeeeeeee"

/-- A successful member of group g1. -/
def exTaskS : TaskRec :=
  { id := idA, name := "alpha", func := "m.f", group := some "g1",
    status := Status.success, result := some "rA" }

/-- A failed member of group g1. -/
def exTaskF : TaskRec :=
  { id := idB, name := "beta", func := "m.f", group := some "g1",
    status := Status.failed, result := some "rB" }

/-- A pending member of group g1. -/
def exTaskP : TaskRec :=
  { id := idC, name := "gamma", func := "m.f", group := some "g1",
    status := Status.pending }

/-- A Task table holding one successful, one failed and one pending
member of group g1. -/
def exDb : List TaskRec := [exTaskS, exTaskF, exTaskP]

/-- First of two tasks sharing the name dup. -/
def exTaskD1 : TaskRec := { id := idD, name := "dup", func := "m.f" }

/-- Second of two tasks sharing the name dup. -/
def exTaskD2 : TaskRec := { id := idE, name := "dup", func := "m.f" }

/-- A Task table with an ambiguous name. -/
def exDbDup : List TaskRec := [exTaskD1, exTaskD2]

/-- A resolution environment in which every hook reference resolves to a
callback that returns normally. -/
def hookResolveOk :
    String → Except ResolveErr (TaskRec → Except String Unit) :=
  fun _ => Except.ok fun _ => Except.ok ()

/-- A pending task carrying a hook reference. -/
def pendingHookTask : TaskRec :=
  { id := idC, name := "ptask", func := "m.f", hook := some "m.hook",
    status := Status.pending }

/-- A croniter model accepting exactly the expression 0 0 * * *. -/
def exCronLib : CronLib := ⟨fun c => c == "0 0 * * *"⟩

/-- A schedule of the every-N-minutes type with a null minutes field. -/
def exSchedMinutesNoMinutes : ScheduleRec :=
  { func := "m.f", schedule_type := "I" }

/-- A schedule of the cron type with a null cron field. -/
def exSchedCronNoCron : ScheduleRec :=
  { func := "m.f", schedule_type := "C" }

/-- A schedule of the once type carrying a minutes value. -/
def exSchedOnceWithMinutes : ScheduleRec :=
  { func := "m.f", schedule_type := "O", minutes := some 5 }

/-- A schedule of the cron type with a malformed cron expression. -/
def exSchedBadCron : ScheduleRec :=
  { func := "m.f", schedule_type := "C", cron := some "not a cron" }

/-- A worker executing task t1 on cluster c1. -/
def exWorkerA : WorkerRec :=
  { id := "w1", cluster := "c1", task := some "t1" }

/-- An idle worker on cluster c2. -/
def exWorkerB : WorkerRec := { id := "w2", cluster := "c2", task := none }

/-- A Worker table with one worker per cluster. -/
def exWorkers : List WorkerRec := [exWorkerA, exWorkerB]

/-- C1: the claim says delete_group(g, cascade=true) deletes all member
rows of group g and delete_group(g, cascade=false) clears the group tag
on all member rows.  In the source, delete_group builds its queryset via
get_group_tasks with the failures parameter left at its default True,
which filters on a success field the Task model does not declare; Django
therefore raises FieldError when the delete or update evaluates, and no
member row is deleted or cleared.  Evaluation at a concrete group with a
successful, a failed and a pending member. -/
theorem C1_delete_group_eval :
    delete_group exDb "g1" true = Except.error QErr.fieldError ∧
    delete_group exDb "g1" false = Except.error QErr.fieldError ∧
    (exDb.filter fun t => t.group == some "g1") = [exTaskS, exTaskF, exTaskP] := by
  refine ⟨rfl, rfl, rfl⟩

/-- C5: the claim says the group queries with failures_only=true select
exactly the members of the group with failed status, and with
failures_only=false all members.  With failures=true all three queries
filter on the undeclared success field and raise FieldError; only the
failures=false direction behaves as claimed.  Evaluation at a concrete
group holding a successful, a failed and a pending member. -/
theorem C5_group_queries_eval :
    get_group_tasks exDb "g1" true = Except.error QErr.fieldError ∧
    get_group_count exDb "g1" true = Except.error QErr.fieldError ∧
    get_group_results exDb "g1" true = Except.error QErr.fieldError ∧
    get_group_tasks exDb "g1" false = Except.ok [exTaskS, exTaskF, exTaskP] ∧
    get_group_results exDb "g1" false =
      Except.ok [some "rA", some "rB", none] := by
  refine ⟨rfl, rfl, rfl, rfl, rfl⟩

/-- C6: the claim says get_group_count(g, failures=true) is less than or
equal to get_group_count(g, failures=false) in every state.  The failures
count raises FieldError (undeclared success field) instead of returning a
number, so the inequality never holds; the failures=false count works. -/
theorem C6_group_count_eval :
    get_group_count exDb "g1" true = Except.error QErr.fieldError ∧
    get_group_count exDb "g1" false = Except.ok 3 ∧
    get_group_count ([] : List TaskRec) "g1" true =
      Except.error QErr.fieldError := by
  refine ⟨rfl, rfl, rfl⟩

/-- C2: on every Task save that triggers the hook dispatcher, resolution
failures are logged and swallowed, exceptions raised by the resolved
callable are caught and discarded, no exception escapes the hook dispatch
back to the caller of save, and the saved Task record is unaffected: for
every resolution environment, table and task, call_hook returns an
outcome rather than an escaping exception, the save completes with the
table updated exactly by save_task, and the saved row is present. -/
theorem C2_hook_isolation
    (resolve : String → Except ResolveErr (TaskRec → Except String Unit))
    (db : List TaskRec) (t : TaskRec) :
    (∃ o, call_hook resolve t = Except.ok o) ∧
    (∃ o, save_with_hooks resolve db t = Except.ok (save_task db t, o)) ∧
    t ∈ save_task db t := by
  have hok : ∃ o, call_hook resolve t = Except.ok o := by
    cases hh : t.hook with
    | none => exact ⟨HookOutcome.noHook, by simp [call_hook, hh]⟩
    | some h =>
      by_cases he : h.isEmpty
      · exact ⟨HookOutcome.noHook, by simp [call_hook, hh, he]⟩
      · cases hr : resolve h with
        | error r =>
          exact ⟨HookOutcome.resolutionFailedLogged,
            by simp [call_hook, hh, he, hr]⟩
        | ok f =>
          cases hf : f t with
          | ok u =>
            exact ⟨HookOutcome.invokedOk, by simp [call_hook, hh, he, hr, hf]⟩
          | error e =>
            exact ⟨HookOutcome.invokedRaisedLogged e,
              by simp [call_hook, hh, he, hr, hf]⟩
  obtain ⟨o, ho⟩ := hok
  refine ⟨⟨o, ho⟩, ⟨o, by simp [save_with_hooks, ho]⟩, ?_⟩
  by_cases hany : (db.any fun u => u.id == t.id) = true
  · simp only [save_task, hany, if_true]
    obtain ⟨u, hu, hbeq⟩ := List.any_eq_true.mp hany
    exact List.mem_map.mpr ⟨u, hu, by simp [hbeq]⟩
  · simp [save_task, hany]

/-- C3: the claim says the hook dispatcher is invoked exactly on saves of
tasks with terminal status and non-null hook, and that a save of a
pending task does not invoke the hook callback.  call_hook performs no
status check: here a pending task with a hook reference has its callback
invoked, refuting the claim at a concrete input. -/
theorem C3_counterexample :
    pendingHookTask.status = Status.pending ∧
    pendingHookTask.hook = some "m.hook" ∧
    call_hook hookResolveOk pendingHookTask =
      Except.ok HookOutcome.invokedOk := by
  refine ⟨rfl, rfl, rfl⟩

/-- C3 amended: the hook dispatcher proceeds past the no-hook outcome on
exactly those Task saves where the hook field is non-null and non-empty,
regardless of the status of the task, and whenever the reference also resolves
the callback itself is invoked (returning normally or raising a logged
exception). -/
theorem C3_dispatch_condition
    (resolve : String → Except ResolveErr (TaskRec → Except String Unit))
    (t : TaskRec) :
    (call_hook resolve t = Except.ok HookOutcome.noHook ↔
      hookTruthy t.hook = false) ∧
    (∀ h f, t.hook = some h → h.isEmpty = false →
      resolve h = Except.ok f →
      call_hook resolve t = Except.ok HookOutcome.invokedOk ∨
      ∃ e, call_hook resolve t =
        Except.ok (HookOutcome.invokedRaisedLogged e)) := by
  constructor
  · cases hh : t.hook with
    | none => simp [call_hook, hh, hookTruthy]
    | some h =>
      by_cases he : h.isEmpty
      · simp [call_hook, hh, he, hookTruthy]
      · cases hr : resolve h with
        | error r => simp [call_hook, hh, he, hr, hookTruthy]
        | ok f =>
          cases hf : f t with
          | ok u => simp [call_hook, hh, he, hr, hf, hookTruthy]
          | error e => simp [call_hook, hh, he, hr, hf, hookTruthy]
  · intro h f hh he hr
    cases hf : f t with
    | ok u => exact Or.inl (by simp [call_hook, hh, he, hr, hf])
    | error e => exact Or.inr ⟨e, by simp [call_hook, hh, he, hr, hf]⟩

/-- C3 amended, witness: the amended dispatch condition evaluated on the
concrete pending task with a hook. -/
theorem C3_dispatch_condition_witness :
    (call_hook hookResolveOk pendingHookTask = Except.ok HookOutcome.noHook ↔
      hookTruthy pendingHookTask.hook = false) ∧
    (call_hook hookResolveOk pendingHookTask =
        Except.ok HookOutcome.invokedOk ∨
      ∃ e, call_hook hookResolveOk pendingHookTask =
        Except.ok (HookOutcome.invokedRaisedLogged e)) := by
  have h := C3_dispatch_condition hookResolveOk pendingHookTask
  exact ⟨h.1, h.2 "m.hook" (fun _ => Except.ok ()) rfl rfl rfl⟩

/-- C4: get_task looks up by id when the input has the fixed 32-character
id length (and such a row exists), otherwise falls back to a name lookup,
and an ambiguous name (more than one matching row) is an error condition
(MultipleObjectsReturned), never resolved by returning the first match. -/
theorem C4_get_task_lookup (db : List TaskRec) (s : String) :
    (∀ t, s.length = 32 → (db.filter fun u => u.id == s) = [t] →
      get_task db s = Except.ok (some t)) ∧
    (∀ t, s.length ≠ 32 → (db.filter fun u => u.name == s) = [t] →
      get_task db s = Except.ok (some t)) ∧
    (∀ t1 t2 rest, (db.filter fun u => u.id == s) = [] →
      (db.filter fun u => u.name == s) = t1 :: t2 :: rest →
      get_task db s = Except.error QErr.multipleObjectsReturned) := by
  refine ⟨?_, ?_, ?_⟩
  · intro t hlen hfilt
    simp [get_task, hfilt, hlen, djangoGet, Except.map]
  · intro t hlen hfilt
    have hb : (s.length == 32) = false := by
      simp [hlen]
    simp [get_task, hb, hfilt, djangoGet, Except.map]
  · intro t1 t2 rest hid hname
    simp [get_task, hid, hname, djangoGet, Except.map]

/-- C4 witness: the lookup characterisation evaluated on concrete tables:
an ambiguous name raises MultipleObjectsReturned, a 32-character id hits
the id row, and a short name falls back to the name row. -/
theorem C4_get_task_lookup_witness :
    get_task exDbDup "dup" = Except.error QErr.multipleObjectsReturned ∧
    get_task exDbDup idD = Except.ok (some exTaskD1) ∧
    get_task exDb "alpha" = Except.ok (some exTaskS) := by
  refine ⟨(C4_get_task_lookup exDbDup "dup").2.2 exTaskD1 exTaskD2 [] rfl rfl,
    (C4_get_task_lookup exDbDup idD).1 exTaskD1 rfl rfl,
    (C4_get_task_lookup exDb "alpha").2.1 exTaskS (by decide) rfl⟩

/-- C7: with the croniter library installed, validate_cron raises
ValidationError on exactly the malformed cron expressions (those on which
croniter.expand raises ValueError) and raises nothing on well-formed
ones, and a schedule of the cron type carrying a malformed expression is
rejected at write time when the field validators run. -/
theorem C7_validate_cron_spec (lib : CronLib) (e : String) :
    (lib.expandOk e = false →
      validate_cron (some lib) e = Except.error QErr.validationError) ∧
    (lib.expandOk e = true → validate_cron (some lib) e = Except.ok ()) ∧
    (∀ s : ScheduleRec, s.schedule_type = "C" → s.cron = some e →
      lib.expandOk e = false →
      schedule_clean (some lib) s = Except.error QErr.validationError) := by
  have hc : scheduleTypeChoices.contains "C" = true := rfl
  refine ⟨fun h => by simp [validate_cron, h],
    fun h => by simp [validate_cron, h],
    fun s hst hcr h => ?_⟩
  simp [schedule_clean, hst, hc, hcr, validate_cron, h]

/-- C7 witness: the concrete croniter model accepts 0 0 * * * and
rejects a malformed expression, and the malformed cron schedule fails
write-time validation. -/
theorem C7_validate_cron_spec_witness :
    validate_cron (some exCronLib) "not a cron" =
      Except.error QErr.validationError ∧
    validate_cron (some exCronLib) "0 0 * * *" = Except.ok () ∧
    schedule_clean (some exCronLib) exSchedBadCron =
      Except.error QErr.validationError := by
  refine ⟨(C7_validate_cron_spec exCronLib "not a cron").1 rfl,
    (C7_validate_cron_spec exCronLib "0 0 * * *").2.1 rfl,
    (C7_validate_cron_spec exCronLib "not a cron").2.2 exSchedBadCron rfl rfl rfl⟩

/-- C8: the claim says minutes must be present iff the schedule is of the
every-N-minutes type and cron present iff of the cron type, violations
being rejected at write time.  Both fields are declared null=True,
blank=True with no presence check anywhere: a minutes-type schedule with
null minutes, a cron-type schedule with null cron, and a once-type
schedule carrying a minutes value all pass write-time validation,
refuting the claim. -/
theorem C8_counterexample :
    exSchedMinutesNoMinutes.schedule_type = "I" ∧
    exSchedMinutesNoMinutes.minutes = none ∧
    schedule_clean (some exCronLib) exSchedMinutesNoMinutes =
      Except.ok () ∧
    exSchedCronNoCron.schedule_type = "C" ∧
    exSchedCronNoCron.cron = none ∧
    schedule_clean (some exCronLib) exSchedCronNoCron = Except.ok () ∧
    exSchedOnceWithMinutes.schedule_type = "O" ∧
    exSchedOnceWithMinutes.minutes = some 5 ∧
    schedule_clean (some exCronLib) exSchedOnceWithMinutes =
      Except.ok () := by
  refine ⟨rfl, rfl, rfl, rfl, rfl, rfl, rfl, rfl, rfl⟩

/-- C8 amended: no write-time requirement links minutes or cron to the
schedule_type: every schedule with a declared type letter and a null cron
field passes validation, whatever its schedule_type and minutes fields
hold; a non-null cron is checked only for well-formedness. -/
theorem C8_no_presence_requirement (cronlib : Option CronLib)
    (s : ScheduleRec) (hc : s.cron = none)
    (ht : scheduleTypeChoices.contains s.schedule_type = true) :
    schedule_clean cronlib s = Except.ok () := by
  simp [schedule_clean, hc]
  simpa using ht

/-- C8 amended, witness: the minutes-type schedule with null minutes
passes validation. -/
theorem C8_no_presence_requirement_witness :
    schedule_clean (some exCronLib) exSchedMinutesNoMinutes =
      Except.ok () :=
  C8_no_presence_requirement (some exCronLib) exSchedMinutesNoMinutes
    rfl rfl

/-- C9: deleting a Task row clears (sets to null, without deleting) the
task reference of every Worker that references it — the worker count is
preserved, no remaining worker references the deleted task, and workers
not referencing it survive unchanged — while deleting a Cluster row
deletes every Worker referencing that cluster and keeps exactly the
others. -/
theorem C9_worker_fk_on_delete (ws : List WorkerRec) (tid cid : String) :
    (on_task_delete ws tid).length = ws.length ∧
    (∀ w ∈ on_task_delete ws tid, w.task ≠ some tid) ∧
    (∀ w ∈ ws, w.task ≠ some tid → w ∈ on_task_delete ws tid) ∧
    (∀ w ∈ on_cluster_delete ws cid, w.cluster ≠ cid) ∧
    (∀ w ∈ ws, w.cluster ≠ cid → w ∈ on_cluster_delete ws cid) := by
  refine ⟨List.length_map _ _, ?_, ?_, ?_, ?_⟩
  · intro w hw
    obtain ⟨u, hu, rfl⟩ := List.mem_map.mp hw
    by_cases h : u.task = some tid
    · simp [h]
    · simp [h]
  · intro w hw h
    refine List.mem_map.mpr ⟨w, hw, ?_⟩
    simp [h]
  · intro w hw
    have h := (List.mem_filter.mp hw).2
    simpa [bne_iff_ne] using h
  · intro w hw h
    exact List.mem_filter.mpr ⟨hw, by simpa [bne_iff_ne] using h⟩

/-- C9 witness: the foreign-key delete semantics evaluated on a concrete
worker table with one worker per cluster. -/
theorem C9_worker_fk_on_delete_witness :
    (on_task_delete exWorkers "t1").length = exWorkers.length ∧
    exWorkerB ∈ on_task_delete exWorkers "t1" ∧
    exWorkerB ∈ on_cluster_delete exWorkers "c1" := by
  have h := C9_worker_fk_on_delete exWorkers "t1" "c1"
  exact ⟨h.1, h.2.2.1 exWorkerB (by decide) (by decide),
    h.2.2.2.2 exWorkerB (by decide) (by decide)⟩

/-- C10: for an input matching the id and name of no stored task, get_task
returns none without raising, while get_result raises AttributeError (the
attribute access on the absent task) instead of returning a result or
none. -/
theorem C10_missing_lookup (db : List TaskRec) (s : String)
    (hid : (db.filter fun u => u.id == s) = [])
    (hname : (db.filter fun u => u.name == s) = []) :
    get_task db s = Except.ok none ∧
    get_result db s = Except.error QErr.attributeError := by
  have h1 : get_task db s = Except.ok none := by
    simp [get_task, hid, hname]
  exact ⟨h1, by simp [get_result, h1]⟩

/-- C10 witness: the missing-lookup behaviour on a concrete table and an
input matching nothing. -/
theorem C10_missing_lookup_witness :
    get_task exDb "nosuch" = Except.ok none ∧
    get_result exDb "nosuch" = Except.error QErr.attributeError :=
  C10_missing_lookup exDb "nosuch" rfl rfl

end DjangoQ
